import Mathlib

/-!
Verification development for a minimal authentication backend
(`src/main.py`, `src/schemas.py`): register, login and "who am I"
endpoints over a document store, with bcrypt-style password hashing and
signed expiring bearer tokens.

The embedding models time and randomness explicitly: each `datetime.now`
read and each salt draw in a handler is a separate parameter, passed in
the order the code performs the reads.  Store operations are pure
functions on a `Store` value; HTTP failures are `Except HErr` results.
-/

/-- HTTP-level failure: status code plus detail message, as raised by
`HTTPException(status_code=..., detail=...)`. -/
structure HErr where
  status : Nat
  detail : String
deriving Repr, DecidableEq

/-! ## Credential hasher -/

/-- Split a character list at the first occurrence of `sep`: returns the
part before and the part after, or `none` when `sep` does not occur. -/
def splitFirst (sep : Char) : List Char → Option (List Char × List Char)
  | [] => none
  | c :: rest =>
    if c = sep then some ([], rest)
    else
      match splitFirst sep rest with
      | none => none
      | some (a, b) => some (c :: a, b)

/-- The `$2b$` header opening a well-formed hash string. -/
def hashHeader : List Char := ['$', '2', 'b', '$']

/-- Salt rendered into the hash string; contains no `$` separator. -/
def saltChars (salt : Nat) : List Char := List.replicate salt 's'

/-- The digest part of a hash: salt material followed by the password
material, collision-free by construction (idealization of §4.1). -/
def digestChars (saltCs : List Char) (password : String) : List Char :=
  saltCs ++ '|' :: password.data

/-- Modelled from the spec: `hash_password` delegates to passlib's
`CryptContext(schemes=["bcrypt"]).hash`, an external collaborator not
under `src/`.  Per §4.1 the output is a self-describing salted hash
(header, embedded salt, digest over salt and password); the per-call
random salt is an explicit parameter. -/
def hash_password (salt : Nat) (password : String) : String :=
  ⟨hashHeader ++ saltChars salt ++ '$' :: digestChars (saltChars salt) password⟩

/-- Parse a stored hash string: require the `$2b$` header, then split
salt from digest at the next `$`.  `none` on malformed input. -/
def parseHash (cs : List Char) : Option (List Char × List Char) :=
  if cs.take 4 = hashHeader then splitFirst '$' (cs.drop 4) else none

/-- Modelled from the spec: `verify_password` delegates to passlib's
`CryptContext.verify`, an external collaborator not under `src/`.  Per
§4.1 it reparses the stored hash, recomputes the digest with the
embedded salt, and compares; it is total and returns `false` on
malformed stored hashes or mismatched password. -/
def verify_password (plain : String) (hashed : String) : Bool :=
  match parseHash hashed.data with
  | none => false
  | some (saltCs, digest) => digest == digestChars saltCs plain

/-! ## Token codec -/

/-- Claims payload of a token: optional `sub` and absolute expiry
instant (seconds). -/
structure Claims where
  sub : Option String
  exp : Nat
deriving Repr, DecidableEq

/-- Numeric encoding of a string, used by the modelled MAC. -/
def encodeStr (s : String) : Nat :=
  s.data.foldl (fun a c => a * 1114112 + c.toNat + 1) 1

/-- Modelled from the spec: the symmetric MAC used by `jwt.encode` /
`jwt.decode` (python-jose, external collaborator not under `src/`).
Deterministic in the secret and the claims (§4.2). -/
def mac (secret : Nat) (c : Claims) : Nat :=
  secret * 1000003 + c.exp * 31 + ((c.sub.map encodeStr).getD 0) * 7

/-- A token string: either a well-formed signed encoding of a claims
set, or an arbitrary malformed string. -/
inductive TokenStr where
  | well (claims : Claims) (sig : Nat)
  | malformed (raw : String)
deriving Repr, DecidableEq

/-- Function `create_access_token` (src/main.py:41): copies the claims, sets
`exp = now + expire_minutes * 60` and signs with the secret.  The
handlers call it with `data = {"sub": email}` and no explicit delta, so
the ttl is the configured `ACCESS_TOKEN_EXPIRE_MINUTES`. -/
def create_access_token (secret expireMinutes now : Nat) (sub : String) : TokenStr :=
  let c : Claims := { sub := some sub, exp := now + expireMinutes * 60 }
  .well c (mac secret c)

/-- Modelled from the spec: `jwt.decode` (python-jose, external
collaborator not under `src/`).  Per §4.2 it checks signature validity
and `exp > now`, returning the claims on success and failing on a
malformed token, a bad signature, or expiry. -/
def jwtDecode (secret now : Nat) (t : TokenStr) : Option Claims :=
  match t with
  | .malformed _ => none
  | .well c sig => if sig = mac secret c ∧ now < c.exp then some c else none

/-! ## Data model and store -/

/-- A stored `authuser` document.  `_id` is store-assigned at insert;
`password_hash` is optional because `login` reads it defensively with
`doc.get("password_hash", "")`. -/
structure UserDoc where
  _id : Nat
  email : String
  password_hash : Option String
  name : Option String
  created_at : Nat
  updated_at : Nat
  is_active : Bool
deriving Repr, DecidableEq

/-- The user store: documents in insertion order plus the next id the
store will assign. -/
structure Store where
  docs : List UserDoc
  nextId : Nat
deriving Repr, DecidableEq

def emptyStore : Store := { docs := [], nextId := 0 }

/-- Lookup `find_one({"email": e})` on the `authuser` collection: first stored
document with the given email. -/
def find_one_email (st : Store) (e : String) : Option UserDoc :=
  st.docs.find? (fun d => d.email == e)

/-- Lookup `find_one({"_id": q})`: first stored document whose id matches the
query value; a `None` query matches no stored document since every
stored document carries a store-assigned id. -/
def find_one_id (st : Store) (q : Option Nat) : Option UserDoc :=
  st.docs.find? (fun d => (some d._id : Option Nat) == q)

/-! ## Request / response models -/

/-- A raw register request body before input parsing. -/
structure RawRegister where
  email : String
  password : String
  name : Option String
deriving Repr, DecidableEq

/-- Model `RegisterBody` (src/main.py:51): `email: EmailStr`, `password: str`,
`name: Optional[str]`. -/
structure RegisterBody where
  email : String
  password : String
  name : Option String
deriving Repr, DecidableEq

/-- Model `LoginBody` (src/main.py:57). -/
structure LoginBody where
  email : String
  password : String
deriving Repr, DecidableEq

/-- Modelled from the spec: pydantic's `EmailStr` validation (external
collaborator not under `src/`); §4.5 delegates email-format checking to
input parsing.  Well-formed: a single `@` with a non-empty local part
and a non-empty domain containing a dot and no further `@`. -/
def isValidEmail (e : String) : Bool :=
  match splitFirst '@' e.data with
  | none => false
  | some (loc, dom) =>
    !loc.isEmpty && !dom.isEmpty && !dom.contains '@' && dom.contains '.'

/-- Input parsing of a register body: pydantic validates the email
format; the password field is a plain `str` with no constraint. -/
def RegisterBody.parse (r : RawRegister) : Option RegisterBody :=
  if isValidEmail r.email then some ⟨r.email, r.password, r.name⟩ else none

/-- Model `UserOut` (src/main.py:62): the public projection of a user. -/
structure UserOut where
  id : String
  email : String
  name : Option String
deriving Repr, DecidableEq

/-- Model `TokenOut` (src/main.py:68). -/
structure TokenOut where
  access_token : TokenStr
  token_type : String
  user : UserOut
deriving Repr, DecidableEq

/-- Helper `serialize_user` (src/main.py:84): public projection of a stored
document; `str(doc.get("_id"))` renders the id. -/
def serialize_user (doc : UserDoc) : UserOut :=
  { id := toString doc._id, email := doc.email, name := doc.name }

/-! ## Handlers -/

/-- Just for stating success of an `Except` result. -/
def exceptIsOk (r : Except HErr TokenOut) : Bool :=
  match r with
  | .ok _ => true
  | .error _ => false

/-- Handler `register` (src/main.py:160).  Parameters record the handler's
effect reads in order: the hashing salt `salt`, the two `datetime.now`
reads `tc` (for `created_at`) and `tu` (for `updated_at`), and the
`datetime.now` read `tn` inside `create_access_token`.  Returns the
HTTP result together with the post-call store. -/
def register (secret expireMinutes salt tc tu tn : Nat) (st : Store)
    (body : RegisterBody) : Except HErr TokenOut × Store :=
  match find_one_email st body.email with
  | some _ => (.error ⟨409, "Email already registered"⟩, st)
  | none =>
    let doc : UserDoc :=
      { _id := st.nextId
        email := body.email
        password_hash := some (hash_password salt body.password)
        name := body.name
        created_at := tc
        updated_at := tu
        is_active := true }
    let st2 : Store := { docs := st.docs ++ [doc], nextId := st.nextId + 1 }
    let user := serialize_user doc
    let token := create_access_token secret expireMinutes tn user.email
    (.ok { access_token := token, token_type := "bearer", user := user }, st2)

/-- Handler `login` (src/main.py:180).  `tn` is the `datetime.now` read inside
`create_access_token`.  The store is never written. -/
def login (secret expireMinutes tn : Nat) (st : Store) (body : LoginBody) :
    Except HErr TokenOut :=
  match find_one_email st body.email with
  | none => .error ⟨401, "Invalid email or password"⟩
  | some user_doc =>
    if verify_password body.password (user_doc.password_hash.getD "") then
      let user := serialize_user user_doc
      .ok { access_token := create_access_token secret expireMinutes tn user.email
            token_type := "bearer"
            user := user }
    else .error ⟨401, "Invalid email or password"⟩

/-- The `Authorization` header value, after the bearer-scheme check:
either a value that does not use the bearer scheme, or a bearer token. -/
inductive AuthHeaderVal where
  | notBearer (raw : String)
  | bearer (token : TokenStr)
deriving Repr, DecidableEq

/-- Resolver `get_current_user` (src/main.py:88): the identity resolver.  `now`
is the clock at `jwt.decode`.  Includes the dead lookup of line 97,
`find_one({"_id": None})` bound to an unused variable. -/
def get_current_user (secret now : Nat) (st : Store)
    (authorization : Option AuthHeaderVal) : Except HErr UserOut :=
  match authorization with
  | none => .error ⟨401, "Not authenticated"⟩
  | some (.notBearer _) => .error ⟨401, "Not authenticated"⟩
  | some (.bearer token) =>
    match jwtDecode secret now token with
    | none => .error ⟨401, "Invalid token"⟩
    | some payload =>
      let sub := payload.sub.getD ""
      if sub = "" then .error ⟨401, "Invalid token"⟩
      else
        let _u := find_one_id st none
        match find_one_email st sub with
        | none => .error ⟨401, "User not found"⟩
        | some user_doc => .ok (serialize_user user_doc)

/-- The identity resolver with the dead line-97 lookup removed,
following the claim's description of the simplified flow. -/
def get_current_user_nolookup (secret now : Nat) (st : Store)
    (authorization : Option AuthHeaderVal) : Except HErr UserOut :=
  match authorization with
  | none => .error ⟨401, "Not authenticated"⟩
  | some (.notBearer _) => .error ⟨401, "Not authenticated"⟩
  | some (.bearer token) =>
    match jwtDecode secret now token with
    | none => .error ⟨401, "Invalid token"⟩
    | some payload =>
      let sub := payload.sub.getD ""
      if sub = "" then .error ⟨401, "Invalid token"⟩
      else
        match find_one_email st sub with
        | none => .error ⟨401, "User not found"⟩
        | some user_doc => .ok (serialize_user user_doc)

/-! ## Fixtures for witnesses -/

def doc1 : UserDoc :=
  { _id := 0, email := "a@x.com", password_hash := some (hash_password 3 "pw1")
    name := none, created_at := 10, updated_at := 10, is_active := true }

def st1 : Store := { docs := [doc1], nextId := 1 }

/-! ## Hasher lemmas -/

lemma splitFirst_append (sep : Char) (a b : List Char) (h : sep ∉ a) :
    splitFirst sep (a ++ sep :: b) = some (a, b) := by
  induction a with
  | nil => simp [splitFirst]
  | cons c a ih =>
    have hc : ¬ c = sep := by
      intro e
      exact h (by simp [e])
    simp only [List.cons_append, splitFirst, if_neg hc, List.append_eq]
    rw [ih (fun hm => h (List.mem_cons_of_mem _ hm))]

lemma parseHash_header (rest : List Char) :
    parseHash (hashHeader ++ rest) = splitFirst '$' rest := by
  unfold parseHash
  rw [List.take_left' (by rfl), List.drop_left' (by rfl)]
  simp

lemma dollar_not_mem_saltChars (salt : Nat) : '$' ∉ saltChars salt := by
  intro hm
  rw [saltChars, List.mem_replicate] at hm
  exact absurd hm.2 (by decide)

lemma parseHash_hash (salt : Nat) (q : String) :
    parseHash (hash_password salt q).data =
      some (saltChars salt, digestChars (saltChars salt) q) := by
  show parseHash (hashHeader ++ (saltChars salt ++ '$' :: digestChars (saltChars salt) q)) = _
  rw [parseHash_header]
  exact splitFirst_append '$' _ _ (dollar_not_mem_saltChars salt)


/-! ## Claim theorems -/

/-- C1: register with an email already present in the store fails with
HTTP 409 Conflict and performs no insert: the post-call store equals the
pre-call store. -/
theorem register_conflict_unchanged
    (secret expireMinutes salt tc tu tn : Nat) (st : Store) (body : RegisterBody)
    (doc : UserDoc) (h : find_one_email st body.email = some doc) :
    register secret expireMinutes salt tc tu tn st body =
      (.error ⟨409, "Email already registered"⟩, st) := by
  unfold register
  rw [h]

theorem register_conflict_unchanged_witness :
    find_one_email st1 "a@x.com" = some doc1 ∧
      register 0 60 0 0 0 0 st1 ⟨"a@x.com", "pw2", none⟩ =
        (.error ⟨409, "Email already registered"⟩, st1) :=
  ⟨by decide, register_conflict_unchanged 0 60 0 0 0 0 st1 ⟨"a@x.com", "pw2", none⟩
    doc1 (by decide)⟩

/-- C2: for every salt and password `p`, verifying `p` against
`hash_password salt p` succeeds; and for `p ≠ p2`, verifying `p`
against `hash_password salt p2` fails. -/
theorem verify_hash_roundtrip :
    (∀ (salt : Nat) (p : String), verify_password p (hash_password salt p) = true) ∧
    (∀ (salt : Nat) (p p2 : String), p ≠ p2 →
      verify_password p (hash_password salt p2) = false) := by
  constructor
  · intro salt p
    simp [verify_password, parseHash_hash]
  · intro salt p p2 hne
    unfold verify_password
    rw [parseHash_hash]
    show (digestChars (saltChars salt) p2 == digestChars (saltChars salt) p) = false
    rw [beq_eq_false_iff_ne]
    intro hd
    apply hne
    unfold digestChars at hd
    have h2 : p2.data = p.data := by
      have := List.append_cancel_left hd
      simpa using this
    cases p with
    | mk d =>
      cases p2 with
      | mk d2 => simp_all

theorem verify_hash_roundtrip_witness :
    ("pw" : String) ≠ "qw" ∧
      verify_password "pw" (hash_password 2 "pw") = true ∧
      verify_password "pw" (hash_password 2 "qw") = false :=
  ⟨by decide, verify_hash_roundtrip.1 2 "pw",
    verify_hash_roundtrip.2 2 "pw" "qw" (by decide)⟩

/-- C5: a login whose email has no matching user and a login whose user
exists but whose password fails verification produce the identical error
result: status 401 with detail "Invalid email or password". -/
theorem login_error_indistinguishable :
    (∀ (secret expireMinutes tn : Nat) (st : Store) (body : LoginBody),
      find_one_email st body.email = none →
        login secret expireMinutes tn st body =
          .error ⟨401, "Invalid email or password"⟩) ∧
    (∀ (secret expireMinutes tn : Nat) (st : Store) (body : LoginBody) (doc : UserDoc),
      find_one_email st body.email = some doc →
      verify_password body.password (doc.password_hash.getD "") = false →
        login secret expireMinutes tn st body =
          .error ⟨401, "Invalid email or password"⟩) := by
  constructor
  · intro secret expireMinutes tn st body h
    unfold login
    rw [h]
  · intro secret expireMinutes tn st body doc h hv
    simp [login, h, hv]

theorem login_error_indistinguishable_witness :
    find_one_email emptyStore "a@x.com" = none ∧
      find_one_email st1 "a@x.com" = some doc1 ∧
      verify_password "wrong" (doc1.password_hash.getD "") = false ∧
      login 0 60 0 emptyStore ⟨"a@x.com", "pw1"⟩ =
        .error ⟨401, "Invalid email or password"⟩ ∧
      login 0 60 0 st1 ⟨"a@x.com", "wrong"⟩ =
        .error ⟨401, "Invalid email or password"⟩ :=
  ⟨by decide, by decide, by decide,
    login_error_indistinguishable.1 0 60 0 emptyStore ⟨"a@x.com", "pw1"⟩ (by decide),
    login_error_indistinguishable.2 0 60 0 st1 ⟨"a@x.com", "wrong"⟩ doc1
      (by decide) (by decide)⟩

/-- C10: the identity resolver with the dead `find_one({"_id": None})`
lookup of line 97 returns exactly the same user or failure as the same
flow with that lookup removed, for every header and store state. -/
theorem resolver_dead_lookup_equiv
    (secret now : Nat) (st : Store) (authorization : Option AuthHeaderVal) :
    get_current_user secret now st authorization =
      get_current_user_nolookup secret now st authorization := by
  cases authorization with
  | none => rfl
  | some v =>
    cases v with
    | notBearer raw => rfl
    | bearer token =>
      unfold get_current_user get_current_user_nolookup
      cases jwtDecode secret now token with
      | none => rfl
      | some payload => rfl

/-- C3: issuing a token with claims `{sub: s}` and immediately decoding
it with the same secret key succeeds and yields a claims payload whose
`sub` equals `s` (the configured ttl is positive; the default is 60
minutes). -/
theorem issue_then_decode_sub
    (secret expireMinutes now : Nat) (sub : String) (hem : 0 < expireMinutes) :
    jwtDecode secret now (create_access_token secret expireMinutes now sub) =
      some { sub := some sub, exp := now + expireMinutes * 60 } := by
  have hlt : now < now + expireMinutes * 60 := by
    have h60 : 0 < expireMinutes * 60 := Nat.mul_pos hem (by norm_num)
    omega
  simp [create_access_token, jwtDecode, hlt]

theorem issue_then_decode_sub_witness :
    0 < 60 ∧
      jwtDecode 5 0 (create_access_token 5 60 0 "a@x.com") =
        some { sub := some "a@x.com", exp := 3600 } :=
  ⟨by decide, issue_then_decode_sub 5 60 0 "a@x.com" (by decide)⟩

/-- C4: token verification fails on a malformed token, on an invalid
signature, and on an `exp` not in the future even when the signature is
valid; and a failed decode surfaces as HTTP 401 "Invalid token" in the
identity resolver. -/
theorem decode_rejects_invalid :
    (∀ (secret now : Nat) (raw : String),
      jwtDecode secret now (.malformed raw) = none) ∧
    (∀ (secret now : Nat) (c : Claims) (sig : Nat), sig ≠ mac secret c →
      jwtDecode secret now (.well c sig) = none) ∧
    (∀ (secret now : Nat) (c : Claims) (sig : Nat), c.exp ≤ now →
      jwtDecode secret now (.well c sig) = none) ∧
    (∀ (secret now : Nat) (st : Store) (t : TokenStr),
      jwtDecode secret now t = none →
        get_current_user secret now st (some (.bearer t)) =
          .error ⟨401, "Invalid token"⟩) := by
  refine ⟨fun secret now raw => rfl, ?_, ?_, ?_⟩
  · intro secret now c sig hsig
    show (if sig = mac secret c ∧ now < c.exp then some c else none) = none
    rw [if_neg]
    intro hc
    exact hsig hc.1
  · intro secret now c sig hexp
    show (if sig = mac secret c ∧ now < c.exp then some c else none) = none
    rw [if_neg]
    intro hc
    exact absurd hc.2 (Nat.not_lt.mpr hexp)
  · intro secret now st t h
    simp [get_current_user, h]

theorem decode_rejects_invalid_witness :
    (1 : Nat) ≠ mac 0 { sub := some "a@x.com", exp := 9 } ∧
      ({ sub := some "a@x.com", exp := 9 } : Claims).exp ≤ 9 ∧
      jwtDecode 0 0 (.malformed "junk") = none ∧
      jwtDecode 0 0 (.well { sub := some "a@x.com", exp := 9 } 1) = none ∧
      jwtDecode 0 9 (.well { sub := some "a@x.com", exp := 9 }
        (mac 0 { sub := some "a@x.com", exp := 9 })) = none ∧
      get_current_user 0 0 st1 (some (.bearer (.malformed "junk"))) =
        .error ⟨401, "Invalid token"⟩ :=
  ⟨by decide, by decide,
    decode_rejects_invalid.1 0 0 "junk",
    decode_rejects_invalid.2.1 0 0 { sub := some "a@x.com", exp := 9 } 1 (by decide),
    decode_rejects_invalid.2.2.1 0 9 { sub := some "a@x.com", exp := 9 } _ (by decide),
    decode_rejects_invalid.2.2.2 0 0 st1 (.malformed "junk") rfl⟩

/-- C6: `verify_password` is a total Boolean function that returns
`false` on any stored hash it cannot parse (including the empty
string), and a login against a user whose stored `password_hash` is
missing or malformed yields the 401 credential error, never an
unhandled failure. -/
theorem verify_total_false_on_malformed :
    (∀ (plain hashed : String), parseHash hashed.data = none →
      verify_password plain hashed = false) ∧
    (∀ (secret expireMinutes tn : Nat) (st : Store) (body : LoginBody) (doc : UserDoc),
      find_one_email st body.email = some doc →
      parseHash ((doc.password_hash.getD "").data) = none →
        login secret expireMinutes tn st body =
          .error ⟨401, "Invalid email or password"⟩) := by
  have hv : ∀ (plain hashed : String), parseHash hashed.data = none →
      verify_password plain hashed = false := by
    intro plain hashed h
    simp [verify_password, h]
  refine ⟨hv, ?_⟩
  intro secret expireMinutes tn st body doc hf hm
  simp [login, hf, hv body.password _ hm]

def doc2 : UserDoc :=
  { _id := 0, email := "b@x.com", password_hash := none
    name := none, created_at := 10, updated_at := 10, is_active := true }

def st2 : Store := { docs := [doc2], nextId := 1 }

theorem verify_total_false_on_malformed_witness :
    parseHash ("" : String).data = none ∧
      parseHash ("not-a-hash" : String).data = none ∧
      find_one_email st2 "b@x.com" = some doc2 ∧
      parseHash ((doc2.password_hash.getD "").data) = none ∧
      verify_password "x" "" = false ∧
      verify_password "x" "not-a-hash" = false ∧
      login 0 60 0 st2 ⟨"b@x.com", "x"⟩ =
        .error ⟨401, "Invalid email or password"⟩ :=
  ⟨by decide, by decide, by decide, by decide,
    verify_total_false_on_malformed.1 "x" "" (by decide),
    verify_total_false_on_malformed.1 "x" "not-a-hash" (by decide),
    verify_total_false_on_malformed.2 0 60 0 st2 ⟨"b@x.com", "x"⟩ doc2
      (by decide) (by decide)⟩

/-- C7 counterexample: a register request with a well-formed email and
an empty password passes input parsing unchanged, and the register call
succeeds, inserting a user record — refuting the claim that every
empty-password request fails at input validation with no user created. -/
theorem register_empty_password_accepted :
    RegisterBody.parse ⟨"a@x.com", "", none⟩ = some ⟨"a@x.com", "", none⟩ ∧
      exceptIsOk (register 0 60 0 0 0 0 emptyStore ⟨"a@x.com", "", none⟩).1 = true ∧
      (register 0 60 0 0 0 0 emptyStore ⟨"a@x.com", "", none⟩).2.docs.length = 1 := by
  refine ⟨?_, ?_, ?_⟩ <;> decide

/-- C7 amended: input parsing rejects exactly the bodies whose email is
not well-formed; a body with a valid email is accepted unchanged
whatever its password, so an empty password is not rejected. -/
theorem parse_validates_email_only :
    (∀ r : RawRegister, isValidEmail r.email = false →
      RegisterBody.parse r = none) ∧
    (∀ r : RawRegister, isValidEmail r.email = true →
      RegisterBody.parse r = some ⟨r.email, r.password, r.name⟩) := by
  constructor
  · intro r h
    simp [RegisterBody.parse, h]
  · intro r h
    simp [RegisterBody.parse, h]

theorem parse_validates_email_only_witness :
    isValidEmail "nope" = false ∧
      isValidEmail "a@x.com" = true ∧
      RegisterBody.parse ⟨"nope", "pw", none⟩ = none ∧
      RegisterBody.parse ⟨"a@x.com", "", none⟩ = some ⟨"a@x.com", "", none⟩ :=
  ⟨by decide, by decide,
    parse_validates_email_only.1 ⟨"nope", "pw", none⟩ (by decide),
    parse_validates_email_only.2 ⟨"a@x.com", "", none⟩ (by decide)⟩

/-- C8 counterexample: `register` reads the clock separately for
`created_at` (line 170) and `updated_at` (line 171); with the first read
returning 0 and the second 1, the call succeeds and the inserted record
has `created_at ≠ updated_at` — refuting the claim that both always
carry the single current time of the request. -/
theorem register_two_clock_reads :
    exceptIsOk (register 0 60 0 0 1 0 emptyStore ⟨"a@x.com", "pw", none⟩).1 = true ∧
      ((register 0 60 0 0 1 0 emptyStore ⟨"a@x.com", "pw", none⟩).2.docs.map
        (fun d => d.created_at == d.updated_at)) = [false] := by
  refine ⟨?_, ?_⟩ <;> decide

/-- C8 amended: every successful register call appends exactly one
record, whose `created_at` is the first clock reading of the handler,
whose `updated_at` is the immediately following second reading (equal
to `created_at` exactly when the two reads coincide), and whose
`is_active` is `true`. -/
theorem register_insert_fields
    (secret expireMinutes salt tc tu tn : Nat) (st : Store) (body : RegisterBody)
    (h : find_one_email st body.email = none) :
    (register secret expireMinutes salt tc tu tn st body).2.docs =
      st.docs ++
        [{ _id := st.nextId
           email := body.email
           password_hash := some (hash_password salt body.password)
           name := body.name
           created_at := tc
           updated_at := tu
           is_active := true }] := by
  simp [register, h]

theorem register_insert_fields_witness :
    find_one_email emptyStore "a@x.com" = none ∧
      (register 0 60 0 7 7 0 emptyStore ⟨"a@x.com", "pw", none⟩).2.docs =
        [{ _id := 0
           email := "a@x.com"
           password_hash := some (hash_password 0 "pw")
           name := none
           created_at := 7
           updated_at := 7
           is_active := true }] :=
  ⟨by decide,
    register_insert_fields 0 60 0 7 7 0 emptyStore ⟨"a@x.com", "pw", none⟩ (by decide)⟩

/-- Unfolding of the identity resolver on a bearer header. -/
lemma get_current_user_bearer (secret now : Nat) (st : Store) (t : TokenStr) :
    get_current_user secret now st (some (.bearer t)) =
      match jwtDecode secret now t with
      | none => .error ⟨401, "Invalid token"⟩
      | some payload =>
        if payload.sub.getD "" = "" then .error ⟨401, "Invalid token"⟩
        else
          match find_one_email st (payload.sub.getD "") with
          | none => .error ⟨401, "User not found"⟩
          | some user_doc => .ok (serialize_user user_doc) := rfl

/-- C9: whenever the identity resolver succeeds, the returned value is
exactly the public projection of a stored user record: its `id`,
`email` and `name`, and nothing else — `UserOut` has no
`password_hash`, `created_at`, `updated_at` or `is_active` field. -/
theorem me_public_projection
    (secret now : Nat) (st : Store) (authorization : Option AuthHeaderVal)
    (u : UserOut)
    (h : get_current_user secret now st authorization = .ok u) :
    ∃ doc : UserDoc, doc ∈ st.docs ∧
      u = { id := toString doc._id, email := doc.email, name := doc.name } := by
  cases authorization with
  | none => exact Except.noConfusion h
  | some v =>
    cases v with
    | notBearer raw => exact Except.noConfusion h
    | bearer token =>
      rw [get_current_user_bearer] at h
      split at h
      · exact Except.noConfusion h
      · split at h
        · exact Except.noConfusion h
        · split at h
          · exact Except.noConfusion h
          · rename_i doc hf
            refine ⟨doc, List.mem_of_find?_eq_some hf, ?_⟩
            injection h with h2
            rw [← h2]
            rfl

theorem me_public_projection_witness :
    get_current_user 5 0 st1 (some (.bearer (create_access_token 5 60 0 "a@x.com"))) =
      .ok { id := "0", email := "a@x.com", name := none } ∧
      ∃ doc : UserDoc, doc ∈ st1.docs ∧
        ({ id := "0", email := "a@x.com", name := none } : UserOut) =
          { id := toString doc._id, email := doc.email, name := doc.name } :=
  ⟨by rfl,
    me_public_projection 5 0 st1 (some (.bearer (create_access_token 5 60 0 "a@x.com")))
      { id := "0", email := "a@x.com", name := none } (by rfl)⟩
